import Mathlib

/-!
Verification of the sandbox-server lifecycle core of `workspaces-rs`
(`src/workspaces/src/network/server.rs`) against its specification.

The Rust code is shallowly embedded: the process environment is an
association list, the set of held port-file locks is a list of port
numbers, the temp-dir filesystem is a list of directory identifiers, and
every fallible external effect (tempdir creation, `near-sandbox init`,
config patching, `near-sandbox run`, `File::unlock`, `Child::kill`) is
driven by an explicit oracle so that each failure point of the source can
be exercised.  Rust's drop semantics for `File` (closing the descriptor
releases the advisory lock) and for `TempDir` (dropping removes the
directory) are made explicit at each early-return point, exactly where
the Rust compiler inserts the drops.
-/

/-- Error kinds of the crate's `Result`, as used in `server.rs`:
`SandboxErrorCode::InitFailure`, `SandboxErrorCode::RunFailure`,
`ErrorKind::Io`, plus a marker for a Rust `panic!`/`unwrap` failure.
Wrapped causes are folded into the message string. -/
inductive Err where
  | initFailure (msg : String)
  | runFailure (msg : String)
  | ioError (msg : String)
  | panicked (msg : String)
deriving DecidableEq

deriving instance DecidableEq for Except

/-- Process environment, modelled as an association list of variable
name and value (`std::env`). -/
abbrev EnvMap := List (String × String)

/-- Embedding of `std::env::var`: look a variable up in the environment. -/
def envVar (env : EnvMap) (k : String) : Option String :=
  match env.find? (fun kv => kv.1 == k) with
  | some kv => some kv.2
  | none => none

/-- Embedding of `std::env::set_var`: overwrite a variable in the
environment (any previous binding is removed). -/
def setVar (env : EnvMap) (k v : String) : EnvMap :=
  (k, v) :: env.filter (fun kv => kv.1 != k)

/-- Value forced into `NEAR_SANDBOX_LOG` by log suppression
(`server.rs` line 191). -/
def sandboxLogValue : String := "near=error,stats=error,network=error"

/-- Embedding of `supress_sandbox_logs_if_required` (`server.rs`
lines 182-192): if `NEAR_ENABLE_SANDBOX_LOG` is set to anything other
than `"0"`, return leaving the environment untouched; otherwise (unset
or `"0"`) overwrite `NEAR_SANDBOX_LOG` in the process-global
environment. -/
def supress_sandbox_logs_if_required (env : EnvMap) : EnvMap :=
  match envVar env "NEAR_ENABLE_SANDBOX_LOG" with
  | some val =>
    if val ≠ "0" then env
    else setVar env "NEAR_SANDBOX_LOG" sandboxLogValue
  | none => setVar env "NEAR_SANDBOX_LOG" sandboxLogValue

/-- Decimal digit characters. -/
def isDigitChar (c : Char) : Bool := '0' ≤ c && c ≤ '9'

/-- Numeric value of a digit character. -/
def digitVal (c : Char) : Nat := c.toNat - 48

/-- Value of a big-endian string of digit characters. -/
def digitsVal (cs : List Char) : Nat :=
  cs.foldl (fun a c => 10 * a + digitVal c) 0

/-- Digit character of a value below ten. -/
def digitChar (d : Nat) : Char :=
  match d with
  | 0 => '0'
  | 1 => '1'
  | 2 => '2'
  | 3 => '3'
  | 4 => '4'
  | 5 => '5'
  | 6 => '6'
  | 7 => '7'
  | 8 => '8'
  | _ => '9'

/-- Little-endian decimal digits of `n`, with explicit fuel so the
recursion is structural (`fuel ≥ n` suffices). -/
def natDigitsRev (fuel n : Nat) : List Nat :=
  match fuel with
  | 0 => []
  | fuel + 1 => if n = 0 then [] else n % 10 :: natDigitsRev fuel (n / 10)

/-- Decimal representation of a natural number, as Rust's
`format!` machinery prints an unsigned integer. -/
def natToDecimal (n : Nat) : List Char :=
  if n = 0 then ['0'] else ((natDigitsRev n n).map digitChar).reverse

/-- Decimal representation as a string. -/
def natDecStr (n : Nat) : String := String.mk (natToDecimal n)

/-- Rust's `format!` debug rendering of an `Option` of an integer, as it
appears in the unlock error messages. -/
def fmtOptNat : Option Nat → String
  | none => "None"
  | some n => "Some(" ++ natDecStr n ++ ")"

/-- Modelled from the spec: a parsed URL as produced by the external
`url` crate's `Url::parse`, which is not part of this repository.  The
spec describes the RPC endpoint as "a URL string of the form
`http://localhost:<port>`", so the model keeps a scheme, a host and an
optional port. -/
structure Url where
  scheme : String
  host : String
  port : Option Nat
deriving DecidableEq

/-- Scheme characters (ASCII letters). -/
def isSchemeChar (c : Char) : Bool := c.isAlpha

/-- Host characters: letters, digits, dots and hyphens. -/
def isHostChar (c : Char) : Bool := c.isAlphanum || c == '.' || c == '-'

/-- Modelled from the spec: port parsing of the external `url` crate —
a non-empty all-digit string whose value fits in 16 bits. -/
def parsePort (cs : List Char) : Option Nat :=
  if cs ≠ [] ∧ cs.all isDigitChar ∧ digitsVal cs < 65536 then
    some (digitsVal cs)
  else none

/-- Modelled from the spec: host and optional port of a URL — a
non-empty host, optionally followed by a colon and a port. -/
def parseHostPort (cs : List Char) : Option (String × Option Nat) :=
  let host := cs.takeWhile isHostChar
  let rest := cs.dropWhile isHostChar
  if host = [] then none
  else
    match rest with
    | [] => some (String.mk host, none)
    | c :: rest1 =>
      if c = ':' then
        match parsePort rest1 with
        | some p => some (String.mk host, some p)
        | none => none
      else none

/-- Assemble a URL from the scheme prefix and the remainder of the
input: the scheme must be non-empty and be followed by the literal
separator `://`. -/
def urlAssemble (scheme rest : List Char) : Option Url :=
  if scheme = [] then none
  else
    match rest with
    | c1 :: c2 :: c3 :: rest1 =>
      if c1 = ':' ∧ c2 = '/' ∧ c3 = '/' then
        match parseHostPort rest1 with
        | some hp => some ⟨ String.mk scheme, hp.1, hp.2 ⟩
        | none => none
      else none
    | _ => none

/-- Modelled from the spec: the external `url` crate's `Url::parse`,
restricted to the `scheme://host[:port]` shape the spec uses — the crate
itself is a dependency, not code of this repository. -/
def url_parse (s : String) : Option Url :=
  urlAssemble (s.data.takeWhile isSchemeChar) (s.data.dropWhile isSchemeChar)

/-- Constant `DEFAULT_RPC_URL` of `server.rs` line 18. -/
def DEFAULT_RPC_URL : String := "http://localhost"

/-- Embedding of the endpoint construction of `run_new` (`server.rs`
line 95): `format!` of the default URL, a colon and the RPC port. -/
def rpcAddrString (port : Nat) : String :=
  DEFAULT_RPC_URL ++ ":" ++ natDecStr port

/-- Embedding of `ValidatorKey` (`server.rs` lines 50-53); home
directories are identified by the identifiers of the filesystem model,
and the opaque `AccountId` and `SecretKey` payloads by strings. -/
inductive ValidatorKey where
  | HomeDir (path : Nat)
  | Known (account_id : String) (secret_key : String)
deriving DecidableEq

/-- Embedding of a spawned `async_process::Child`: its process id and
the environment it inherited from the parent at spawn time. -/
structure Child where
  pid : Nat
  env : EnvMap
deriving DecidableEq

/-- Embedding of `SandboxServer` (`server.rs` lines 55-63).  A held
`File` port lock is represented by the port number it guards; `none`
means the handle was consumed or never existed. -/
structure SandboxServer where
  validator_key : ValidatorKey
  rpc_addr : Url
  net_port : Option Nat
  rpc_port_lock : Option Nat
  net_port_lock : Option Nat
  process : Option Child
deriving DecidableEq

/-- Embedding of `SandboxServer::rpc_port` (`server.rs` lines 141-143):
the port component of the stored RPC URL. -/
def SandboxServer.rpc_port (s : SandboxServer) : Option Nat :=
  s.rpc_addr.port

/-- Embedding of `acquire_unused_port` (`server.rs` lines 22-34).
`samples` is the stream of candidate ports `pick_unused_port` would
yield (an empty stream models `pick_unused_port` returning `None`);
`locked` is the set of ports whose lock file is currently exclusively
locked by anyone on the host, so `p ∈ locked` is exactly
`try_lock_exclusive` failing.  On contention the loop moves on to the
next sample.  Success returns the port, the new locked set and the
unconsumed samples. -/
def acquire_unused_port : List Nat → List Nat → Except Err (Nat × List Nat × List Nat)
  | [], _ => .error (.initFailure "no ports free")
  | p :: rest, locked =>
    if p ∈ locked then acquire_unused_port rest locked
    else .ok (p, p :: locked, rest)

/-- Filesystem model for temporary directories: a counter of fresh
identifiers and the list of directories currently existing on disk. -/
structure FsState where
  nextId : Nat
  dirs : List Nat
deriving DecidableEq

/-- Embedding of `tempfile::TempDir`: an owning handle to a temporary
directory. -/
structure TempDir where
  id : Nat
deriving DecidableEq

/-- Drop semantics of `tempfile::TempDir`: dropping the handle removes
the directory from disk. -/
def tempDirDrop (d : TempDir) (fs : FsState) : FsState :=
  { fs with dirs := fs.dirs.erase d.id }

/-- Embedding of `TempDir::into_path`: consume the handle without
deleting the directory; the caller now owns cleanup. -/
def TempDir.into_path (d : TempDir) : Nat := d.id

/-- Failure oracle for `init_home_dir`: whether `tempfile::tempdir`
succeeds, whether `sandbox::init` can be spawned, and whether awaiting
its output succeeds. -/
structure InitOracle where
  tempdirOk : Bool
  initSpawnOk : Bool
  initOutputOk : Bool
deriving DecidableEq

/-- Embedding of `init_home_dir` (`server.rs` lines 36-46): create a
fresh temp dir (an `Io` error if that fails), then spawn `sandbox::init`
and await its output, each failure mapped to `InitFailure`.  On either
failure the local `TempDir` is dropped at the early return, which
deletes the directory. -/
def init_home_dir (o : InitOracle) (fs : FsState) : Except Err TempDir × FsState :=
  if o.tempdirOk then
    let d : TempDir := ⟨ fs.nextId ⟩
    let fs1 : FsState := ⟨ fs.nextId + 1, fs.nextId :: fs.dirs ⟩
    if o.initSpawnOk then
      if o.initOutputOk then (.ok d, fs1)
      else (.error (.initFailure "sandbox init process failed"), tempDirDrop d fs1)
    else (.error (.initFailure "sandbox init could not be spawned"), tempDirDrop d fs1)
  else (.error (.ioError "could not create temp dir"), fs)

/-- Failure oracle for `run_new`: the `init_home_dir` oracle, whether
`set_sandbox_configs` succeeds, whether `sandbox::run` can be spawned,
and the pid of the spawned child. -/
structure RunOracle where
  initO : InitOracle
  configOk : Bool
  runSpawnOk : Bool
  pid : Nat
deriving DecidableEq

/-- World state threaded through `run_new`: the process environment,
the temp-dir filesystem and the set of held port locks. -/
structure World where
  env : EnvMap
  fs : FsState
  locked : List Nat
deriving DecidableEq

/-- Embedding of `SandboxServer::run_new` (`server.rs` lines 83-113):
suppress sandbox logs, initialize the home dir, patch its config,
reserve the RPC and net ports, build the endpoint URL (the `unwrap` on
`Url::parse` modelled as a `panicked` error), and spawn the node.  At
every early return the locally held `File` locks are dropped, which
releases them (`List.erase` on the locked set); on success both locks,
the child handle and the `HomeDir` credential move into the returned
server. -/
def SandboxServer.run_new (o : RunOracle) (samples : List Nat) (w : World) :
    Except Err SandboxServer × World :=
  let env1 := supress_sandbox_logs_if_required w.env
  match init_home_dir o.initO w.fs with
  | (.error e, fs1) => (.error e, ⟨ env1, fs1, w.locked ⟩)
  | (.ok d, fs1) =>
    let home_dir := d.into_path
    if o.configOk then
      match acquire_unused_port samples w.locked with
      | .error e => (.error e, ⟨ env1, fs1, w.locked ⟩)
      | .ok (rpc_port, locked1, samples1) =>
        match acquire_unused_port samples1 locked1 with
        | .error e => (.error e, ⟨ env1, fs1, locked1.erase rpc_port ⟩)
        | .ok (net_port, locked2, _) =>
          match url_parse (rpcAddrString rpc_port) with
          | none =>
            (.error (.panicked "called unwrap on an Err value"),
             ⟨ env1, fs1, (locked2.erase net_port).erase rpc_port ⟩)
          | some rpc_addr =>
            if o.runSpawnOk then
              (.ok { validator_key := .HomeDir home_dir, rpc_addr := rpc_addr,
                     net_port := some net_port, rpc_port_lock := some rpc_port,
                     net_port_lock := some net_port,
                     process := some ⟨ o.pid, env1 ⟩ },
               ⟨ env1, fs1, locked2 ⟩)
            else
              (.error (.runFailure "sandbox run could not be spawned"),
               ⟨ env1, fs1, (locked2.erase net_port).erase rpc_port ⟩)
    else (.error (.initFailure "could not set sandbox configs"), ⟨ env1, fs1, w.locked ⟩)

/-- Embedding of `SandboxServer::connect` (`server.rs` lines 68-80):
parse the supplied address (an `InitFailure` embedding the malformed
string otherwise) and return a server owning no ports, no locks and no
process. -/
def SandboxServer.connect (rpc_addr : String) (validator_key : ValidatorKey) :
    Except Err SandboxServer :=
  match url_parse rpc_addr with
  | none => .error (.initFailure ("Invalid rpc_url=" ++ rpc_addr))
  | some u =>
    .ok { validator_key := validator_key, rpc_addr := u, net_port := none,
          rpc_port_lock := none, net_port_lock := none, process := none }

/-- Embedding of the `net_port` half of `unlock_lockfiles` (`server.rs`
lines 129-136): `take` the lock handle if present, then unlock it,
mapping an OS failure (decided by the `failUnlock` oracle on the port)
to an `Io` error tagged with `self.net_port`. -/
def unlock_net_lock (failUnlock : Nat → Bool) (s : SandboxServer) :
    Except Err Unit × SandboxServer :=
  match s.net_port_lock with
  | some f =>
    let s1 := { s with net_port_lock := none }
    if failUnlock f then
      (.error (.ioError ("failed to unlock lockfile for net_port=" ++ fmtOptNat s1.net_port)), s1)
    else (.ok (), s1)
  | none => (.ok (), s)

/-- Embedding of `SandboxServer::unlock_lockfiles` (`server.rs` lines
117-139): `take` and unlock the RPC lock first — a failure there is
returned at once by the `?` operator, tagged with `self.rpc_port()`,
without touching the net lock — then `take` and unlock the net lock. -/
def SandboxServer.unlock_lockfiles (failUnlock : Nat → Bool) (s : SandboxServer) :
    Except Err Unit × SandboxServer :=
  match s.rpc_port_lock with
  | some f =>
    let s1 := { s with rpc_port_lock := none }
    if failUnlock f then
      (.error (.ioError ("failed to unlock lockfile for rpc_port=" ++ fmtOptNat s1.rpc_port)), s1)
    else unlock_net_lock failUnlock s1
  | none => unlock_net_lock failUnlock s

/-- Observable outcome of `SandboxServer`'s `Drop` implementation. -/
inductive DropOutcome where
  | noop
  | killed (pid : Nat)
  | panicked (msg : String)
deriving DecidableEq

/-- Embedding of `impl Drop for SandboxServer` (`server.rs` lines
154-175): return immediately when no child process is owned; otherwise
kill the child, and `unwrap` the result — a kill failure (the
`killResult` oracle yielding the OS error text) panics with the
formatted message. -/
def sandboxDrop (killResult : Option String) (s : SandboxServer) : DropOutcome :=
  match s.process with
  | none => .noop
  | some child =>
    match killResult with
    | some e => .panicked ("Could not cleanup sandbox due to: " ++ e)
    | none => .killed child.pid

/-! Helper lemmas. -/

theorem acquire_unused_port_ok {samples locked locked' rest : List Nat} {p : Nat}
    (h : acquire_unused_port samples locked = .ok (p, locked', rest)) :
    p ∉ locked ∧ locked' = p :: locked ∧ p ∈ samples := by
  induction samples with
  | nil => simp [acquire_unused_port] at h
  | cons q qs ih =>
    rw [acquire_unused_port] at h
    by_cases hq : q ∈ locked
    · rw [if_pos hq] at h
      obtain ⟨ h1, h2, h3 ⟩ := ih h
      exact ⟨ h1, h2, List.mem_cons_of_mem q h3 ⟩
    · rw [if_neg hq] at h
      obtain ⟨ rfl, rfl, rfl ⟩ := by simpa using h
      exact ⟨ hq, rfl, List.mem_cons_self q qs ⟩

theorem acquire_unused_port_error {samples locked : List Nat} {e : Err}
    (h : acquire_unused_port samples locked = .error e) :
    e = .initFailure "no ports free" := by
  induction samples with
  | nil => simpa [acquire_unused_port] using h.symm
  | cons q qs ih =>
    rw [acquire_unused_port] at h
    by_cases hq : q ∈ locked
    · rw [if_pos hq] at h
      exact ih h
    · rw [if_neg hq] at h
      simp at h

theorem envVar_setVar_self (env : EnvMap) (k v : String) :
    envVar (setVar env k v) k = some v := by
  simp [envVar, setVar, List.find?]

theorem supress_of_disabled {env : EnvMap}
    (h : envVar env "NEAR_ENABLE_SANDBOX_LOG" = none ∨
         envVar env "NEAR_ENABLE_SANDBOX_LOG" = some "0") :
    supress_sandbox_logs_if_required env = setVar env "NEAR_SANDBOX_LOG" sandboxLogValue := by
  rcases h with h | h <;> simp [supress_sandbox_logs_if_required, h]

/-! Claim theorems. -/

/-- Claim C3: for every port `q` whose lock acquired by `acquire_unused_port` is
still held, a further call to `acquire_unused_port` never returns `q`: on
lock contention the candidate is discarded and the next sample is tried. -/
theorem acquire_unused_port_never_returns_held
    (samples locked : List Nat) (q : Nat) (hq : q ∈ locked)
    (p : Nat) (locked' rest : List Nat)
    (h : acquire_unused_port samples locked = .ok (p, locked', rest)) :
    p ≠ q := by
  intro hpq
  exact (acquire_unused_port_ok h).1 (hpq ▸ hq)

/-- Witness for C3: with the lock on port 5 held, sampling `[5, 7]` skips
the contended candidate 5 and returns 7, which differs from 5. -/
theorem acquire_unused_port_never_returns_held_witness :
    acquire_unused_port [5, 7] [5] = .ok (7, [7, 5], []) ∧ (7 : Nat) ≠ 5 :=
  ⟨ by decide,
    acquire_unused_port_never_returns_held [5, 7] [5] 5 (by decide) 7 [7, 5] [] (by decide) ⟩

/-- Claim C5: teardown of a `SandboxServer` is a no-op when no child process is
owned; when a child is owned it is forcibly killed, and a kill failure is
fatal to the teardown path (a panic carrying the formatted message). -/
theorem sandboxDrop_spec (killResult : Option String) (s : SandboxServer) :
    (s.process = none → sandboxDrop killResult s = .noop)
    ∧ (∀ c, s.process = some c → sandboxDrop none s = .killed c.pid)
    ∧ (∀ c e, s.process = some c → killResult = some e →
        sandboxDrop killResult s = .panicked ("Could not cleanup sandbox due to: " ++ e)) := by
  refine ⟨ fun h => ?_, fun c hc => ?_, fun c e hc he => ?_ ⟩
  · simp [sandboxDrop, h]
  · simp [sandboxDrop, hc]
  · simp [sandboxDrop, hc, he]

/-- A connect-path server: endpoint and credential supplied, no ports, no
locks and no process owned. -/
def connectServer : SandboxServer :=
  { validator_key := .Known "test.near" "ed25519:key", rpc_addr := ⟨ "http", "localhost", some 3030 ⟩,
    net_port := none, rpc_port_lock := none, net_port_lock := none, process := none }

/-- A spawn-path server: both locks held and a child process owned. -/
def spawnServer : SandboxServer :=
  { validator_key := .HomeDir 0, rpc_addr := ⟨ "http", "localhost", some 10 ⟩,
    net_port := some 20, rpc_port_lock := some 10, net_port_lock := some 20,
    process := some ⟨ 42, [] ⟩ }

/-- Witness for C5: dropping a connect-path server is a no-op; dropping a
spawn-path server kills pid 42, and a failing kill panics. -/
theorem sandboxDrop_spec_witness :
    (connectServer.process = none ∧ sandboxDrop none connectServer = .noop)
    ∧ (spawnServer.process = some ⟨ 42, [] ⟩ ∧ sandboxDrop none spawnServer = .killed 42)
    ∧ sandboxDrop (some "EPERM") spawnServer
        = .panicked ("Could not cleanup sandbox due to: " ++ "EPERM") :=
  ⟨ ⟨ by decide, (sandboxDrop_spec none connectServer).1 (by decide) ⟩,
    ⟨ by decide, (sandboxDrop_spec none spawnServer).2.1 ⟨ 42, [] ⟩ (by decide) ⟩,
    (sandboxDrop_spec (some "EPERM") spawnServer).2.2 ⟨ 42, [] ⟩ "EPERM" (by decide) rfl ⟩

/-- Claim C7: when `NEAR_ENABLE_SANDBOX_LOG` is unset or `"0"`, log suppression
sets `NEAR_SANDBOX_LOG` to exactly `near=error,stats=error,network=error`;
for any other value the environment is left untouched. -/
theorem supress_sandbox_logs_spec (env : EnvMap) :
    ((envVar env "NEAR_ENABLE_SANDBOX_LOG" = none ∨
        envVar env "NEAR_ENABLE_SANDBOX_LOG" = some "0") →
      supress_sandbox_logs_if_required env = setVar env "NEAR_SANDBOX_LOG" sandboxLogValue
      ∧ envVar (supress_sandbox_logs_if_required env) "NEAR_SANDBOX_LOG" = some sandboxLogValue)
    ∧ (∀ v, envVar env "NEAR_ENABLE_SANDBOX_LOG" = some v → v ≠ "0" →
      supress_sandbox_logs_if_required env = env) := by
  constructor
  · intro h
    refine ⟨ supress_of_disabled h, ?_ ⟩
    rw [supress_of_disabled h, envVar_setVar_self]
  · intro v hv hne
    simp [supress_sandbox_logs_if_required, hv, hne]

/-- Witness for C7 at a `"0"`-valued and a `"1"`-valued environment. -/
theorem supress_sandbox_logs_spec_witness :
    (envVar [("NEAR_ENABLE_SANDBOX_LOG", "0"), ("OTHER", "x")] "NEAR_ENABLE_SANDBOX_LOG" = some "0"
      ∧ envVar (supress_sandbox_logs_if_required [("NEAR_ENABLE_SANDBOX_LOG", "0"), ("OTHER", "x")])
          "NEAR_SANDBOX_LOG" = some sandboxLogValue)
    ∧ supress_sandbox_logs_if_required [("NEAR_ENABLE_SANDBOX_LOG", "1")]
        = [("NEAR_ENABLE_SANDBOX_LOG", "1")] :=
  ⟨ ⟨ by decide,
      ((supress_sandbox_logs_spec [("NEAR_ENABLE_SANDBOX_LOG", "0"), ("OTHER", "x")]).1
        (Or.inr (by decide))).2 ⟩,
    (supress_sandbox_logs_spec [("NEAR_ENABLE_SANDBOX_LOG", "1")]).2 "1" (by decide) (by decide) ⟩

theorem unlock_net_lock_ok {f : Nat → Bool} {s s1 : SandboxServer} {u : Unit}
    (h : unlock_net_lock f s = (.ok u, s1)) :
    s1.net_port_lock = none ∧ s1.rpc_port_lock = s.rpc_port_lock := by
  cases hn : s.net_port_lock with
  | none =>
    simp [unlock_net_lock, hn] at h
    subst h
    exact ⟨ hn, rfl ⟩
  | some q =>
    by_cases hf : f q
    · simp [unlock_net_lock, hn, hf] at h
    · simp [unlock_net_lock, hn, hf] at h
      subst h
      exact ⟨ rfl, rfl ⟩

theorem unlock_lockfiles_ok_locks_none {f : Nat → Bool} {s s1 : SandboxServer} {u : Unit}
    (h : SandboxServer.unlock_lockfiles f s = (.ok u, s1)) :
    s1.rpc_port_lock = none ∧ s1.net_port_lock = none := by
  cases hr : s.rpc_port_lock with
  | none =>
    rw [SandboxServer.unlock_lockfiles, hr] at h
    obtain ⟨ h1, h2 ⟩ := unlock_net_lock_ok h
    exact ⟨ h2.trans hr, h1 ⟩
  | some q =>
    by_cases hf : f q
    · simp [SandboxServer.unlock_lockfiles, hr, hf] at h
    · simp only [SandboxServer.unlock_lockfiles, hr, hf, if_false, Bool.false_eq_true] at h
      obtain ⟨ h1, h2 ⟩ := unlock_net_lock_ok h
      exact ⟨ h2, h1 ⟩

theorem unlock_lockfiles_noop_of_none {g : Nat → Bool} {s : SandboxServer}
    (h1 : s.rpc_port_lock = none) (h2 : s.net_port_lock = none) :
    SandboxServer.unlock_lockfiles g s = (.ok (), s) := by
  rw [SandboxServer.unlock_lockfiles, h1, unlock_net_lock, h2]

/-- Claim C4: a second call to `unlock_lockfiles` after a call that released the
locks is a no-op: it returns no error and leaves the server unchanged,
the lock handles having been consumed by the first call. -/
theorem unlock_lockfiles_second_call_noop
    (f g : Nat → Bool) (s s1 : SandboxServer) (u : Unit)
    (h : SandboxServer.unlock_lockfiles f s = (.ok u, s1)) :
    SandboxServer.unlock_lockfiles g s1 = (.ok (), s1) := by
  obtain ⟨ h1, h2 ⟩ := unlock_lockfiles_ok_locks_none h
  exact unlock_lockfiles_noop_of_none h1 h2

/-- Witness for C4: a first successful `unlock_lockfiles` on a server
holding both locks, followed by a second call that is a no-op. -/
theorem unlock_lockfiles_second_call_noop_witness :
    SandboxServer.unlock_lockfiles (fun _ => false) spawnServer
      = (.ok (), { spawnServer with rpc_port_lock := none, net_port_lock := none })
    ∧ SandboxServer.unlock_lockfiles (fun _ => true)
        { spawnServer with rpc_port_lock := none, net_port_lock := none }
      = (.ok (), { spawnServer with rpc_port_lock := none, net_port_lock := none }) :=
  ⟨ by decide,
    unlock_lockfiles_second_call_noop (fun _ => false) (fun _ => true) spawnServer
      { spawnServer with rpc_port_lock := none, net_port_lock := none } () (by decide) ⟩

/-- A server holding both port locks, as `run_new` returns it (no process
attached, so the example is inert). -/
def bothLockedServer : SandboxServer :=
  { validator_key := .HomeDir 0, rpc_addr := ⟨ "http", "localhost", some 10 ⟩,
    net_port := some 20, rpc_port_lock := some 10, net_port_lock := some 20,
    process := none }

/-- Unlock oracle under which releasing the lock on port 10 fails. -/
def rpcUnlockFails : Nat → Bool := fun p => p == 10

/-- Counterexample for C2: on a server holding both locks, when releasing
the RPC lock (port 10) fails, `unlock_lockfiles` propagates the error at
once and never attempts the net lock — `net_port_lock` is still held
afterwards, refuting "a failure on one lock does not prevent attempting
to release the other". -/
theorem unlock_lockfiles_skips_net_counterexample :
    (SandboxServer.unlock_lockfiles rpcUnlockFails bothLockedServer).1
      = .error (.ioError "failed to unlock lockfile for rpc_port=Some(10)")
    ∧ (SandboxServer.unlock_lockfiles rpcUnlockFails bothLockedServer).2.net_port_lock
      = some 20 := by
  decide

/-- Claim C2, amended: each OS unlock failure is converted into an `Io` error
tagged with the affected port, but a failure on the RPC lock propagates
immediately: the net lock release is not attempted and the net lock stays
held.  The net lock's own failure is tagged with the net port. -/
theorem unlock_lockfiles_stops_at_first_failure (f : Nat → Bool) (s : SandboxServer) :
    (∀ p, s.rpc_port_lock = some p → f p = true →
      SandboxServer.unlock_lockfiles f s
        = (.error (.ioError ("failed to unlock lockfile for rpc_port=" ++ fmtOptNat s.rpc_addr.port)),
           { s with rpc_port_lock := none }))
    ∧ (∀ q, s.rpc_port_lock = none → s.net_port_lock = some q → f q = true →
      SandboxServer.unlock_lockfiles f s
        = (.error (.ioError ("failed to unlock lockfile for net_port=" ++ fmtOptNat s.net_port)),
           { s with net_port_lock := none })) := by
  constructor
  · intro p hp hf
    simp [SandboxServer.unlock_lockfiles, hp, hf, SandboxServer.rpc_port]
  · intro q hr hq hf
    simp [SandboxServer.unlock_lockfiles, unlock_net_lock, hr, hq, hf]

/-- Witness for C2's amended theorem at the counterexample's input. -/
theorem unlock_lockfiles_stops_at_first_failure_witness :
    bothLockedServer.rpc_port_lock = some 10 ∧ rpcUnlockFails 10 = true
    ∧ SandboxServer.unlock_lockfiles rpcUnlockFails bothLockedServer
      = (.error (.ioError ("failed to unlock lockfile for rpc_port="
            ++ fmtOptNat bothLockedServer.rpc_addr.port)),
         { bothLockedServer with rpc_port_lock := none }) :=
  ⟨ by decide, by decide,
    (unlock_lockfiles_stops_at_first_failure rpcUnlockFails bothLockedServer).1 10
      (by decide) (by decide) ⟩

/-- Claim C6: `connect` fails with an `InitFailure` whose message contains the
supplied address exactly when the address does not parse as a URL; on
success the returned server owns no net port, no locks and no process,
and stores the caller-supplied credential. -/
theorem connect_spec (addr : String) (vk : ValidatorKey) :
    ((∃ msg, SandboxServer.connect addr vk = .error (.initFailure msg)
        ∧ ∃ pre post, msg = pre ++ addr ++ post) ↔ url_parse addr = none)
    ∧ (∀ s, SandboxServer.connect addr vk = .ok s →
        s.net_port = none ∧ s.rpc_port_lock = none ∧ s.net_port_lock = none
        ∧ s.process = none ∧ s.validator_key = vk) := by
  constructor
  · constructor
    · rintro ⟨ msg, hmsg, - ⟩
      cases hu : url_parse addr with
      | none => rfl
      | some u => rw [SandboxServer.connect, hu] at hmsg; simp at hmsg
    · intro hu
      refine ⟨ "Invalid rpc_url=" ++ addr, by rw [SandboxServer.connect, hu],
        "Invalid rpc_url=", "", ?_ ⟩
      simp
  · intro s hs
    cases hu : url_parse addr with
    | none => rw [SandboxServer.connect, hu] at hs; simp at hs
    | some u =>
      rw [SandboxServer.connect, hu] at hs
      simp only [Except.ok.injEq] at hs
      subst hs
      exact ⟨ rfl, rfl, rfl, rfl, rfl ⟩

/-- Witness for C6: `connect "not a url"` fails with the address embedded
in the message, and `connect "http://localhost:3030"` succeeds owning
nothing. -/
theorem connect_spec_witness :
    url_parse "not a url" = none
    ∧ (∃ msg, SandboxServer.connect "not a url" (.Known "a" "k") = .error (.initFailure msg)
        ∧ ∃ pre post, msg = pre ++ "not a url" ++ post)
    ∧ (SandboxServer.connect "http://localhost:3030" (.Known "a" "k")
        = .ok { validator_key := .Known "a" "k", rpc_addr := ⟨ "http", "localhost", some 3030 ⟩,
                net_port := none, rpc_port_lock := none, net_port_lock := none, process := none }
      ∧ ({ validator_key := .Known "a" "k", rpc_addr := ⟨ "http", "localhost", some 3030 ⟩,
           net_port := none, rpc_port_lock := none, net_port_lock := none,
           process := none } : SandboxServer).validator_key = .Known "a" "k") :=
  ⟨ by decide,
    (connect_spec "not a url" (.Known "a" "k")).1.mpr (by decide),
    by decide,
    ((connect_spec "http://localhost:3030" (.Known "a" "k")).2 _ (by decide)).2.2.2.2 ⟩

/-- Counterexample for C8: with a working tempdir but a failing
`sandbox::init` spawn, `init_home_dir` on a fresh filesystem returns an
`InitFailure` — but the freshly created directory 0 is gone afterwards
(the `TempDir` handle is dropped at the early return, deleting the
directory), refuting "the directory is not cleaned up automatically on
this failure path". -/
theorem init_home_dir_failure_removes_dir_counterexample :
    (init_home_dir ⟨ true, false, true ⟩ ⟨ 0, [] ⟩).1
      = .error (.initFailure "sandbox init could not be spawned")
    ∧ (init_home_dir ⟨ true, false, true ⟩ ⟨ 0, [] ⟩).2.dirs = [] := by
  decide

/-- Claim C8, amended: if the init subprocess cannot be spawned or its output
cannot be awaited, `init_home_dir` returns an initialization-failure
error wrapping the cause, and the freshly created temporary directory is
deleted automatically on this failure path (dropping the `TempDir`
removes it), leaving the filesystem's directories as they were. -/
theorem init_home_dir_failure_spec
    (o : InitOracle) (fs : FsState) (e : Err) (fs' : FsState)
    (htd : o.tempdirOk = true)
    (h : init_home_dir o fs = (.error e, fs')) :
    (∃ msg, e = .initFailure msg) ∧ fs'.dirs = fs.dirs := by
  rw [init_home_dir, if_pos htd] at h
  by_cases hs : o.initSpawnOk
  · by_cases ho : o.initOutputOk
    · rw [if_pos hs, if_pos ho] at h
      simp at h
    · rw [if_pos hs, if_neg ho] at h
      obtain ⟨ h1, h2 ⟩ := Prod.mk.injEq .. ▸ h
      refine ⟨ ⟨ "sandbox init process failed", by simpa using h1.symm ⟩, ?_ ⟩
      rw [← h2]
      simp [tempDirDrop]
  · rw [if_neg hs] at h
    obtain ⟨ h1, h2 ⟩ := Prod.mk.injEq .. ▸ h
    refine ⟨ ⟨ "sandbox init could not be spawned", by simpa using h1.symm ⟩, ?_ ⟩
    rw [← h2]
    simp [tempDirDrop]

/-- Witness for C8's amended theorem at the counterexample's input. -/
theorem init_home_dir_failure_spec_witness :
    (∃ msg, Err.initFailure "sandbox init could not be spawned" = .initFailure msg)
    ∧ (FsState.mk 1 []).dirs = (FsState.mk 0 []).dirs :=
  init_home_dir_failure_spec ⟨ true, false, true ⟩ ⟨ 0, [] ⟩
    (.initFailure "sandbox init could not be spawned") ⟨ 1, [] ⟩ (by decide) (by decide)

/-- Claim C1: a failed `run_new` leaves zero held locks: whatever step fails —
including the second port reservation after the first succeeded, and the
process spawn after both ports were reserved — every already-held port
lock is released (the lock `File`s are dropped) before the error is
propagated, so the locked set is exactly what it was before the call. -/
theorem run_new_failure_releases_all_locks
    (o : RunOracle) (samples : List Nat) (w : World) (e : Err) (w' : World)
    (h : SandboxServer.run_new o samples w = (.error e, w')) :
    w'.locked = w.locked := by
  simp only [SandboxServer.run_new] at h
  rcases hinit : init_home_dir o.initO w.fs with ⟨ e1 | d, fs1 ⟩
  · simp only [hinit, Prod.mk.injEq] at h
    obtain ⟨ -, rfl ⟩ := h
    rfl
  · simp only [hinit] at h
    by_cases hc : o.configOk
    · simp only [hc, if_true] at h
      rcases hacq1 : acquire_unused_port samples w.locked with e2 | ⟨ rpc, locked1, samples1 ⟩
      · simp only [hacq1, Prod.mk.injEq] at h
        obtain ⟨ -, rfl ⟩ := h
        rfl
      · simp only [hacq1] at h
        obtain ⟨ -, hlocked1, - ⟩ := acquire_unused_port_ok hacq1
        rcases hacq2 : acquire_unused_port samples1 locked1 with e3 | ⟨ net, locked2, rest2 ⟩
        · simp only [hacq2, Prod.mk.injEq] at h
          obtain ⟨ -, rfl ⟩ := h
          subst hlocked1
          exact List.erase_cons_head rpc w.locked
        · simp only [hacq2] at h
          obtain ⟨ -, hlocked2, - ⟩ := acquire_unused_port_ok hacq2
          rcases hurl : url_parse (rpcAddrString rpc) with - | u
          · simp only [hurl, Prod.mk.injEq] at h
            obtain ⟨ -, rfl ⟩ := h
            subst hlocked2
            subst hlocked1
            rw [List.erase_cons_head net (rpc :: w.locked)]
            exact List.erase_cons_head rpc w.locked
          · simp only [hurl] at h
            by_cases hr : o.runSpawnOk
            · simp only [hr, if_true, Prod.mk.injEq] at h
              exact absurd h.1 (by simp)
            · simp only [hr, if_false, Bool.false_eq_true, Prod.mk.injEq] at h
              obtain ⟨ -, rfl ⟩ := h
              subst hlocked2
              subst hlocked1
              rw [List.erase_cons_head net (rpc :: w.locked)]
              exact List.erase_cons_head rpc w.locked
    · simp only [hc, if_false, Bool.false_eq_true, Prod.mk.injEq] at h
      obtain ⟨ -, rfl ⟩ := h
      rfl

/-- Witness for C1: a spawn failure after both ports 10 and 20 were
reserved leaves the locked set empty, as it was before the call. -/
theorem run_new_failure_releases_all_locks_witness :
    SandboxServer.run_new ⟨ ⟨ true, true, true ⟩, true, false, 42 ⟩ [10, 20] ⟨ [], ⟨ 0, [] ⟩, [] ⟩
      = (.error (.runFailure "sandbox run could not be spawned"),
         ⟨ [("NEAR_SANDBOX_LOG", sandboxLogValue)], ⟨ 1, [0] ⟩, [] ⟩)
    ∧ (World.mk [("NEAR_SANDBOX_LOG", sandboxLogValue)] ⟨ 1, [0] ⟩ []).locked
      = (World.mk [] ⟨ 0, [] ⟩ []).locked :=
  ⟨ by decide,
    run_new_failure_releases_all_locks ⟨ ⟨ true, true, true ⟩, true, false, 42 ⟩ [10, 20]
      ⟨ [], ⟨ 0, [] ⟩, [] ⟩ (.runFailure "sandbox run could not be spawned")
      ⟨ [("NEAR_SANDBOX_LOG", sandboxLogValue)], ⟨ 1, [0] ⟩, [] ⟩ (by decide) ⟩

theorem run_new_world_env (o : RunOracle) (samples : List Nat) (w : World) :
    (SandboxServer.run_new o samples w).2.env = supress_sandbox_logs_if_required w.env := by
  simp only [SandboxServer.run_new]
  repeat' split
  all_goals rfl

theorem run_new_ok_process {o : RunOracle} {samples : List Nat} {w : World}
    {s : SandboxServer} {w' : World}
    (h : SandboxServer.run_new o samples w = (.ok s, w')) :
    s.process = some ⟨ o.pid, supress_sandbox_logs_if_required w.env ⟩ := by
  simp only [SandboxServer.run_new] at h
  rcases hinit : init_home_dir o.initO w.fs with ⟨ e1 | d, fs1 ⟩
  · simp only [hinit, Prod.mk.injEq] at h
    exact absurd h.1 (by simp)
  · simp only [hinit] at h
    by_cases hc : o.configOk
    · simp only [hc, if_true] at h
      rcases hacq1 : acquire_unused_port samples w.locked with e2 | ⟨ rpc, locked1, samples1 ⟩
      · simp only [hacq1, Prod.mk.injEq] at h
        exact absurd h.1 (by simp)
      · simp only [hacq1] at h
        rcases hacq2 : acquire_unused_port samples1 locked1 with e3 | ⟨ net, locked2, rest2 ⟩
        · simp only [hacq2, Prod.mk.injEq] at h
          exact absurd h.1 (by simp)
        · simp only [hacq2] at h
          rcases hurl : url_parse (rpcAddrString rpc) with - | u
          · simp only [hurl, Prod.mk.injEq] at h
            exact absurd h.1 (by simp)
          · simp only [hurl] at h
            by_cases hr : o.runSpawnOk
            · simp only [hr, if_true, Prod.mk.injEq, Except.ok.injEq] at h
              obtain ⟨ rfl, - ⟩ := h
              rfl
            · simp only [hr, if_false, Bool.false_eq_true, Prod.mk.injEq] at h
              exact absurd h.1 (by simp)
    · simp only [hc, if_false, Bool.false_eq_true, Prod.mk.injEq] at h
      exact absurd h.1 (by simp)

/-- Claim C10: log suppression mutates the parent process's global environment:
whenever `NEAR_ENABLE_SANDBOX_LOG` is unset or `"0"`, any pre-existing
`NEAR_SANDBOX_LOG` value is unconditionally overwritten with
`near=error,stats=error,network=error`, the overwrite persists in the
world environment `run_new` leaves behind, and a child spawned by a
successful `run_new` inherits it. -/
theorem supress_overwrites_global_env
    (w : World) (prior : String) (o : RunOracle) (samples : List Nat)
    (henable : envVar w.env "NEAR_ENABLE_SANDBOX_LOG" = none ∨
               envVar w.env "NEAR_ENABLE_SANDBOX_LOG" = some "0")
    (_hprior : envVar w.env "NEAR_SANDBOX_LOG" = some prior) :
    envVar (SandboxServer.run_new o samples w).2.env "NEAR_SANDBOX_LOG" = some sandboxLogValue
    ∧ (∀ s w', SandboxServer.run_new o samples w = (.ok s, w') →
        ∀ c, s.process = some c → envVar c.env "NEAR_SANDBOX_LOG" = some sandboxLogValue) := by
  constructor
  · rw [run_new_world_env, supress_of_disabled henable, envVar_setVar_self]
  · intro s w' hok c hc
    rw [run_new_ok_process hok] at hc
    obtain rfl := by simpa using hc.symm
    show envVar (supress_sandbox_logs_if_required w.env) "NEAR_SANDBOX_LOG" = some sandboxLogValue
    rw [supress_of_disabled henable, envVar_setVar_self]

/-- Witness for C10: with `NEAR_SANDBOX_LOG=debug` set by the user and
`NEAR_ENABLE_SANDBOX_LOG` unset, a successful `run_new` leaves the
overwritten value in the parent environment. -/
theorem supress_overwrites_global_env_witness :
    envVar [("NEAR_SANDBOX_LOG", "debug")] "NEAR_SANDBOX_LOG" = some "debug"
    ∧ envVar
        (SandboxServer.run_new ⟨ ⟨ true, true, true ⟩, true, true, 42 ⟩ [10, 20]
          ⟨ [("NEAR_SANDBOX_LOG", "debug")], ⟨ 0, [] ⟩, [] ⟩).2.env
        "NEAR_SANDBOX_LOG" = some sandboxLogValue :=
  ⟨ by decide,
    (supress_overwrites_global_env ⟨ [("NEAR_SANDBOX_LOG", "debug")], ⟨ 0, [] ⟩, [] ⟩ "debug"
      ⟨ ⟨ true, true, true ⟩, true, true, 42 ⟩ [10, 20] (Or.inl (by decide)) (by decide)).1 ⟩

/-! Decimal round-trip and URL-parse lemmas for the endpoint construction. -/

def valLE : List Nat → Nat
  | [] => 0
  | d :: ds => d + 10 * valLE ds

theorem valLE_natDigitsRev : ∀ fuel n, n ≤ fuel → valLE (natDigitsRev fuel n) = n := by
  intro fuel
  induction fuel with
  | zero =>
    intro n hn
    interval_cases n
    rfl
  | succ fuel ih =>
    intro n hn
    rw [natDigitsRev]
    by_cases h0 : n = 0
    · rw [if_pos h0, h0]
      rfl
    · rw [if_neg h0, valLE]
      have hlt : n / 10 < n := Nat.div_lt_self (Nat.pos_of_ne_zero h0) (by omega)
      rw [ih (n / 10) (by omega)]
      omega

theorem natDigitsRev_lt_ten : ∀ fuel n d, d ∈ natDigitsRev fuel n → d < 10 := by
  intro fuel
  induction fuel with
  | zero =>
    intro n d hd
    simp [natDigitsRev] at hd
  | succ fuel ih =>
    intro n d hd
    rw [natDigitsRev] at hd
    by_cases h0 : n = 0
    · rw [if_pos h0] at hd
      simp at hd
    · rw [if_neg h0] at hd
      rcases List.mem_cons.mp hd with h | h
      · subst h
        exact Nat.mod_lt _ (by omega)
      · exact ih _ _ h

theorem digitVal_digitChar {d : Nat} (hd : d < 10) : digitVal (digitChar d) = d := by
  interval_cases d <;> rfl

theorem isDigitChar_digitChar {d : Nat} (hd : d < 10) : isDigitChar (digitChar d) = true := by
  interval_cases d <;> rfl

theorem digitsVal_append_digit (cs : List Char) (c : Char) :
    digitsVal (cs ++ [c]) = 10 * digitsVal cs + digitVal c := by
  simp [digitsVal, List.foldl_append]

theorem digitsVal_reverse_map (ds : List Nat) (h : ∀ d ∈ ds, d < 10) :
    digitsVal ((ds.map digitChar).reverse) = valLE ds := by
  induction ds with
  | nil => rfl
  | cons a l ih =>
    rw [List.map_cons, List.reverse_cons, digitsVal_append_digit,
        ih (fun d hd => h d (List.mem_cons_of_mem a hd)),
        digitVal_digitChar (h a (List.mem_cons_self a l)), valLE]
    ring

theorem digitsVal_natToDecimal (n : Nat) : digitsVal (natToDecimal n) = n := by
  by_cases h0 : n = 0
  · rw [h0]
    rfl
  · rw [natToDecimal, if_neg h0,
        digitsVal_reverse_map _ (fun d hd => natDigitsRev_lt_ten n n d hd),
        valLE_natDigitsRev n n (le_refl n)]

theorem natToDecimal_all_digits (n : Nat) :
    ∀ c ∈ natToDecimal n, isDigitChar c = true := by
  intro c hc
  by_cases h0 : n = 0
  · rw [h0] at hc
    simp [natToDecimal] at hc
    rw [hc]
    rfl
  · rw [natToDecimal, if_neg h0, List.mem_reverse, List.mem_map] at hc
    obtain ⟨ d, hd, rfl ⟩ := hc
    exact isDigitChar_digitChar (natDigitsRev_lt_ten n n d hd)

theorem natDigitsRev_ne_nil {n : Nat} (h0 : n ≠ 0) : natDigitsRev n n ≠ [] := by
  cases n with
  | zero => exact absurd rfl h0
  | succ m =>
    rw [natDigitsRev, if_neg (Nat.succ_ne_zero m)]
    exact List.cons_ne_nil _ _

theorem natToDecimal_ne_nil (n : Nat) : natToDecimal n ≠ [] := by
  by_cases h0 : n = 0
  · simp [h0, natToDecimal]
  · rw [natToDecimal, if_neg h0]
    simp only [ne_eq, List.reverse_eq_nil_iff, List.map_eq_nil_iff]
    exact natDigitsRev_ne_nil h0

theorem takeWhile_append_all {α : Type} (P : α → Bool) (l1 l2 : List α)
    (h : ∀ c ∈ l1, P c = true) :
    (l1 ++ l2).takeWhile P = l1 ++ l2.takeWhile P := by
  induction l1 with
  | nil => simp
  | cons a l ih =>
    rw [List.cons_append, List.takeWhile_cons, if_pos (h a (List.mem_cons_self a l)),
        ih (fun c hc => h c (List.mem_cons_of_mem a hc)), List.cons_append]

theorem dropWhile_append_all {α : Type} (P : α → Bool) (l1 l2 : List α)
    (h : ∀ c ∈ l1, P c = true) :
    (l1 ++ l2).dropWhile P = l2.dropWhile P := by
  induction l1 with
  | nil => simp
  | cons a l ih =>
    rw [List.cons_append, List.dropWhile_cons, if_pos (h a (List.mem_cons_self a l)),
        ih (fun c hc => h c (List.mem_cons_of_mem a hc))]

theorem parsePort_natToDecimal {p : Nat} (hp : p < 65536) :
    parsePort (natToDecimal p) = some p := by
  have hall : (natToDecimal p).all isDigitChar = true :=
    List.all_eq_true.mpr (natToDecimal_all_digits p)
  rw [parsePort,
      if_pos ⟨ natToDecimal_ne_nil p, hall, by rw [digitsVal_natToDecimal]; exact hp ⟩,
      digitsVal_natToDecimal]

theorem url_parse_rpcAddrString_ok {p : Nat} (hp : p < 65536) :
    url_parse (rpcAddrString p) = some ⟨ "http", "localhost", some p ⟩ := by
  have hdata : (rpcAddrString p).data
      = ['h', 't', 't', 'p'] ++ (':' :: '/' :: '/' ::
          (['l', 'o', 'c', 'a', 'l', 'h', 'o', 's', 't'] ++ (':' :: natToDecimal p))) := rfl
  have hsch : (rpcAddrString p).data.takeWhile isSchemeChar = ['h', 't', 't', 'p'] := by
    rw [hdata, takeWhile_append_all isSchemeChar _ _ (by decide),
        List.takeWhile_cons, if_neg (by decide), List.append_nil]
  have hrest : (rpcAddrString p).data.dropWhile isSchemeChar
      = ':' :: '/' :: '/' ::
          (['l', 'o', 'c', 'a', 'l', 'h', 'o', 's', 't'] ++ (':' :: natToDecimal p)) := by
    rw [hdata, dropWhile_append_all isSchemeChar _ _ (by decide),
        List.dropWhile_cons, if_neg (by decide)]
  have hh1 : (['l', 'o', 'c', 'a', 'l', 'h', 'o', 's', 't']
        ++ (':' :: natToDecimal p)).takeWhile isHostChar
      = ['l', 'o', 'c', 'a', 'l', 'h', 'o', 's', 't'] := by
    rw [takeWhile_append_all isHostChar _ _ (by decide),
        List.takeWhile_cons, if_neg (by decide), List.append_nil]
  have hh2 : (['l', 'o', 'c', 'a', 'l', 'h', 'o', 's', 't']
        ++ (':' :: natToDecimal p)).dropWhile isHostChar
      = ':' :: natToDecimal p := by
    rw [dropWhile_append_all isHostChar _ _ (by decide),
        List.dropWhile_cons, if_neg (by decide)]
  have hhp : parseHostPort (['l', 'o', 'c', 'a', 'l', 'h', 'o', 's', 't']
        ++ (':' :: natToDecimal p))
      = some ("localhost", some p) := by
    simp only [parseHostPort, hh1, hh2, parsePort_natToDecimal hp]
    rfl
  rw [url_parse, hsch, hrest]
  simp only [urlAssemble, hhp]
  rfl

theorem init_home_dir_error_not_panic {o : InitOracle} {fs : FsState} {e : Err} {fs' : FsState}
    (h : init_home_dir o fs = (.error e, fs')) (msg : String) :
    e ≠ .panicked msg := by
  rw [init_home_dir] at h
  by_cases ht : o.tempdirOk
  · rw [if_pos ht] at h
    by_cases hs : o.initSpawnOk
    · by_cases ho : o.initOutputOk
      · rw [if_pos hs, if_pos ho] at h
        simp at h
      · rw [if_pos hs, if_neg ho] at h
        simp only [Prod.mk.injEq, Except.error.injEq] at h
        obtain ⟨ rfl, - ⟩ := h
        simp
    · rw [if_neg hs] at h
      simp only [Prod.mk.injEq, Except.error.injEq] at h
      obtain ⟨ rfl, - ⟩ := h
      simp
  · rw [if_neg ht] at h
    simp only [Prod.mk.injEq, Except.error.injEq] at h
    obtain ⟨ rfl, - ⟩ := h
    simp

/-- Claim C9: the endpoint string `http://localhost:<port>` built by `run_new`
from any 16-bit RPC port always parses as a valid URL, so the URL
construction step (the `unwrap` on the parse) can never fail or panic:
`run_new` never produces a `panicked` error when its port samples are
16-bit values. -/
theorem run_new_endpoint_url_never_fails :
    (∀ p, p < 65536 → url_parse (rpcAddrString p) = some ⟨ "http", "localhost", some p ⟩)
    ∧ (∀ o samples w msg w', (∀ q ∈ samples, q < 65536) →
        SandboxServer.run_new o samples w ≠ (.error (.panicked msg), w')) := by
  constructor
  · intro p hp
    exact url_parse_rpcAddrString_ok hp
  · intro o samples w msg w' hs hcontra
    simp only [SandboxServer.run_new] at hcontra
    rcases hinit : init_home_dir o.initO w.fs with ⟨ e1 | d, fs1 ⟩
    · simp only [hinit, Prod.mk.injEq] at hcontra
      exact absurd (by simpa using hcontra.1) (init_home_dir_error_not_panic hinit msg)
    · simp only [hinit] at hcontra
      by_cases hc : o.configOk
      · simp only [hc, if_true] at hcontra
        rcases hacq1 : acquire_unused_port samples w.locked with e2 | ⟨ rpc, locked1, samples1 ⟩
        · simp only [hacq1, Prod.mk.injEq] at hcontra
          have he2 := acquire_unused_port_error hacq1
          subst he2
          simp at hcontra
        · simp only [hacq1] at hcontra
          obtain ⟨ -, -, hmem ⟩ := acquire_unused_port_ok hacq1
          rcases hacq2 : acquire_unused_port samples1 locked1 with e3 | ⟨ net, locked2, rest2 ⟩
          · simp only [hacq2, Prod.mk.injEq] at hcontra
            have he3 := acquire_unused_port_error hacq2
            subst he3
            simp at hcontra
          · simp only [hacq2] at hcontra
            rcases hurl : url_parse (rpcAddrString rpc) with - | u
            · rw [url_parse_rpcAddrString_ok (hs rpc hmem)] at hurl
              simp at hurl
            · simp only [hurl] at hcontra
              by_cases hr : o.runSpawnOk
              · simp only [hr, if_true, Prod.mk.injEq] at hcontra
                simp at hcontra
              · simp only [hr, if_false, Bool.false_eq_true, Prod.mk.injEq] at hcontra
                simp at hcontra
      · simp only [hc, if_false, Bool.false_eq_true, Prod.mk.injEq] at hcontra
        simp at hcontra

/-- Witness for C9: port 10 parses to the expected URL, and a concrete
successful `run_new` with 16-bit samples is not the panic outcome. -/
theorem run_new_endpoint_url_never_fails_witness :
    (10 : Nat) < 65536
    ∧ url_parse (rpcAddrString 10) = some ⟨ "http", "localhost", some 10 ⟩
    ∧ SandboxServer.run_new ⟨ ⟨ true, true, true ⟩, true, true, 7 ⟩ [10, 20] ⟨ [], ⟨ 0, [] ⟩, [] ⟩
        ≠ (.error (.panicked "called unwrap on an Err value"),
           ⟨ [("NEAR_SANDBOX_LOG", sandboxLogValue)], ⟨ 1, [0] ⟩, [20, 10] ⟩) :=
  ⟨ by decide, run_new_endpoint_url_never_fails.1 10 (by decide),
    run_new_endpoint_url_never_fails.2 ⟨ ⟨ true, true, true ⟩, true, true, 7 ⟩ [10, 20]
      ⟨ [], ⟨ 0, [] ⟩, [] ⟩ "called unwrap on an Err value"
      ⟨ [("NEAR_SANDBOX_LOG", sandboxLogValue)], ⟨ 1, [0] ⟩, [20, 10] ⟩ (by decide) ⟩
